import Mathlib

/-!
Shallow embedding of three modules of a mobile wallet application:

* `app/components/UI/FiatOrders/orderProcessor/wyreApplePay.js` —
  the Wyre Apple-Pay fiat order processor (status mapping, destination
  normalization, order/transfer reconciliation, checkout request flow);
* an InstaPay mnemonic backup helper (encrypt/decrypt a mnemonic under a
  passphrase obtained by signing a fixed message with the first keyring
  account);
* the `EnterPasswordSimple` screen's confirm handler.

JavaScript values are modelled by the inductive type `JSVal`; objects are
association lists of string keys.  Numbers appearing in the verified
properties are integral (HTTP status codes, concrete amounts), so they are
modelled by `Int`; none of the verified code paths performs floating-point
arithmetic.  Exceptions are modelled by `Except JSErr`.
-/

/-- Model of a JavaScript value.  `undef` is `undefined`; `obj` carries the
own enumerable properties in insertion order. -/
inductive JSVal where
  | null : JSVal
  | undef : JSVal
  | bool : Bool → JSVal
  | num : Int → JSVal
  | str : String → JSVal
  | obj : List (String × JSVal) → JSVal

/-- JavaScript truthiness: `undefined`, `null`, `false`, `0` and the empty
string are falsy; every object is truthy.  (`NaN` does not arise in the
verified paths.) -/
def truthy : JSVal → Bool
  | .null => false
  | .undef => false
  | .bool b => b
  | .num n => n != 0
  | .str s => s != ""
  | .obj _ => true

/-- Lookup of a key in an association list of object fields (first binding
wins; objects built by the embedded code have unique keys). -/
def lookupField (fs : List (String × JSVal)) (k : String) : JSVal :=
  match fs.find? (fun p => p.1 = k) with
  | some p => p.2
  | none => JSVal.undef

/-- Property read `v[k]`, assuming `v` is neither `null` nor `undefined`
(those cases throw and are handled by `jgetE`).  Reads on non-object
primitives yield `undefined`, except a string's `length`.  (String index
properties are not modelled; no code path reads a numeric key off a
string.) -/
def jget : JSVal → String → JSVal
  | .obj fs, k => lookupField fs k
  | .str s, k => if k = "length" then .num s.data.length else JSVal.undef
  | _, _ => JSVal.undef

/-- Errors thrown by the embedded code: plain `Error`s (also `TypeError`s and
network-layer rejections) carry a message; `WyreException` carries the
`message`, `type` and `exceptionId` taken from a remote error body. -/
inductive JSErr where
  | jsError : String → JSErr
  | wyreException : JSVal → JSVal → JSVal → JSErr

/-- String conversion used by the `Error` constructor for a defined message
argument. -/
def jsToString : JSVal → String
  | .null => "null"
  | .undef => "undefined"
  | .bool b => if b then "true" else "false"
  | .num n => toString n
  | .str s => s
  | .obj _ => "[object Object]"

/-- The `message` property of a thrown error.  `new Error(m)` leaves the
message empty when `m` is `undefined` and stringifies it otherwise. -/
def JSErr.message : JSErr → String
  | .jsError m => m
  | .wyreException .undef _ _ => ""
  | .wyreException m _ _ => jsToString m

/-- Property read `v[k]`; throws a `TypeError` when `v` is `null` or
`undefined`, as property access does in JavaScript. -/
def jgetE : JSVal → String → Except JSErr JSVal
  | .null, _ => .error (.jsError "TypeError: cannot read property of null")
  | .undef, _ => .error (.jsError "TypeError: cannot read property of undefined")
  | v, k => .ok (jget v k)

/-- Property key coercion for computed access `v[k]` with a non-string `k`. -/
def jsPropKey (v : JSVal) : String := jsToString v

/-- The own enumerable properties spread by `{...v}`: objects spread their
fields, primitives nothing.  (The index properties a string spreads are
not modelled; the code never spreads a string.) -/
def fieldsOf : JSVal → List (String × JSVal)
  | .obj fs => fs
  | _ => []

/-- Merge of object-literal spreads: later keys overwrite earlier ones. -/
def spreadFields (base over : List (String × JSVal)) : List (String × JSVal) :=
  base.filter (fun p => (over.find? (fun q => q.1 = p.1)).isNone) ++ over

/-- The object literal `{...a, ...b}`. -/
def spreadObj (a b : JSVal) : JSVal :=
  .obj (spreadFields (fieldsOf a) (fieldsOf b))

/-- JavaScript `String.prototype.includes`: contiguous substring test. -/
def jsIncludes (s pat : String) : Bool := decide (pat.data <:+: s.data)

/-- JavaScript `status >= n` for an HTTP status.  The status delivered by the
HTTP client is always a number; the comparison is modelled only there. -/
def jsGEInt : JSVal → Int → Bool
  | .num v, n => decide (n ≤ v)
  | _, _ => false

/-- JavaScript `status < n` for an HTTP status (see `jsGEInt`). -/
def jsLTInt : JSVal → Int → Bool
  | .num v, n => decide (v < n)
  | _, _ => false

/-! ## Constants from `reducers/fiatOrders` -/

/-- Modelled from the spec: the local fiat-order state constants of
`reducers/fiatOrders` (not part of the excerpt); the spec names the states
COMPLETED, CANCELLED and PENDING. -/
def FIAT_ORDER_STATES_COMPLETED : JSVal := .str "COMPLETED"

/-- Modelled from the spec: the CANCELLED local state (see
`FIAT_ORDER_STATES_COMPLETED`). -/
def FIAT_ORDER_STATES_CANCELLED : JSVal := .str "CANCELLED"

/-- Modelled from the spec: the PENDING local state (see
`FIAT_ORDER_STATES_COMPLETED`). -/
def FIAT_ORDER_STATES_PENDING : JSVal := .str "PENDING"

/-- Modelled from the spec: the provider tag of `reducers/fiatOrders` used
for Wyre Apple Pay orders. -/
def FIAT_ORDER_PROVIDERS_WYRE_APPLE_PAY : JSVal := .str "WYRE_APPLE_PAY"

/-! ## Helpers of `wyreApplePay.js` -/

/-- `destToAddress`: `dest => (dest.indexOf('ethereum:') === 0 ?
dest.substring(9) : dest)`.  `indexOf(p) === 0` holds exactly when the
string starts with `p`, and `"ethereum:"` has nine (ASCII) characters. -/
def destToAddress (dest : String) : String :=
  if "ethereum:".data.isPrefixOf dest.data then dest.drop 9 else dest

/-- `destToAddress` applied to an arbitrary value: calling `.indexOf` on a
non-string (the model's objects and primitives have no such method) throws
a `TypeError`. -/
def destToAddressJS : JSVal → Except JSErr JSVal
  | .str s => .ok (.str (destToAddress s))
  | _ => .error (.jsError "TypeError: dest.indexOf is not a function")

/-- `wyreOrderStateToFiatState`: a `switch` on the remote order status with
strict-equality cases `'COMPLETE'` and `'FAILED'` and a default (covering
`RUNNING_CHECKS`, `PROCESSING` and anything else) returning PENDING. -/
def wyreOrderStateToFiatState (wyreOrderState : JSVal) : JSVal :=
  match wyreOrderState with
  | .str s =>
      if s = "COMPLETE" then FIAT_ORDER_STATES_COMPLETED
      else if s = "FAILED" then FIAT_ORDER_STATES_CANCELLED
      else FIAT_ORDER_STATES_PENDING
  | _ => FIAT_ORDER_STATES_PENDING

/-- `wyreOrderToFiatOrder`: builds the normalized fiat-order object from a
remote order.  Field reads throw on a `null`/`undefined` argument; the
`account` field applies `destToAddress`, which throws on a non-string
destination. -/
def wyreOrderToFiatOrderE (wyreOrder : JSVal) : Except JSErr JSVal := do
  let id ← jgetE wyreOrder "id"
  let amount ← jgetE wyreOrder "sourceAmount"
  let currency ← jgetE wyreOrder "sourceCurrency"
  let cryptocurrency ← jgetE wyreOrder "destCurrency"
  let status ← jgetE wyreOrder "status"
  let dest ← jgetE wyreOrder "dest"
  let account ← destToAddressJS dest
  return .obj
    [ ("id", id),
      ("provider", FIAT_ORDER_PROVIDERS_WYRE_APPLE_PAY),
      ("amount", amount),
      ("fee", .null),
      ("cryptoAmount", .null),
      ("cryptoFee", .null),
      ("currency", currency),
      ("cryptocurrency", cryptocurrency),
      ("state", wyreOrderStateToFiatState status),
      ("account", account),
      ("txHash", .null),
      ("data", .obj [("order", wyreOrder)]) ]

/-- `wyreTransferToFiatOrder`: reads `fee`, `destAmount`,
`fee[destCurrency]` (guarded by the truthiness of `fee` — note the source
indexes the numeric `fee`, not the `fees` object) and
`blockchainNetworkTx` from its argument. -/
def wyreTransferToFiatOrderE (wyreTransfer : JSVal) : Except JSErr JSVal := do
  let fee ← jgetE wyreTransfer "fee"
  let destAmount ← jgetE wyreTransfer "destAmount"
  let cryptoFee ←
    if truthy fee then do
      let dc ← jgetE wyreTransfer "destCurrency"
      jgetE fee (jsPropKey dc)
    else
      pure JSVal.null
  let tx ← jgetE wyreTransfer "blockchainNetworkTx"
  return .obj
    [ ("fee", fee),
      ("cryptoAmount", destAmount),
      ("cryptoFee", cryptoFee),
      ("txHash", tx) ]

/-- `processWyreApplePayOrder(order)`.  The two HTTP fetches are passed as
resolved-or-rejected results: `fetchOrder` models `getOrderStatus(order.id)`
(an HTTP response whose body is its `data` property) and `fetchTransfer`
models `getTransferStatus(transferId)`.  Note the source binds the whole
response of `getTransferStatus` to `transfer` (it does not destructure
`data`) and passes it to `wyreTransferToFiatOrder`.  The surrounding
`try`/`catch` returns the input order on any thrown error. -/
def processWyreApplePayOrder (fetchOrder fetchTransfer : Except JSErr JSVal)
    (order : JSVal) : JSVal :=
  let attempt : Except JSErr JSVal := do
    let resp ← fetchOrder
    let data ← jgetE resp "data"
    if truthy data = false then
      return order
    else
      let transferId ← jgetE data "transferId"
      if truthy transferId then do
        let transfer ← fetchTransfer
        let o ← wyreOrderToFiatOrderE data
        let t ← wyreTransferToFiatOrderE transfer
        return spreadObj (spreadObj (spreadObj order o) t)
          (.obj [("data", .obj [("order", data), ("transfer", transfer)])])
      else do
        let o ← wyreOrderToFiatOrderE data
        return spreadObj order o
  match attempt with
  | .ok r => r
  | .error _ => order

/-! ## Checkout flow: `useWyreApplePay`'s `showRequest` -/

/-- Payment-sheet side effects performed by `showRequest`:
`paymentResponse.complete('success')`, `paymentResponse.complete('fail')`
and `paymentRequest.abort()`. -/
inductive PayEffect where
  | completeSuccess : PayEffect
  | completeFail : PayEffect
  | abortSheet : PayEffect
deriving DecidableEq

/-- The `try` body of `showRequest`: awaits the payment sheet
(`showResult`, rejecting on user cancellation), throws
`'Payment Request Failed'` on a falsy payment response, posts the order
(`submitResult`, an HTTP response resolved whenever its status is at least
200, per the client's `validateStatus`), and branches on the status:
2xx completes the sheet with success and returns the normalized order plus
the `network` field; otherwise it completes the sheet with fail and throws
a `WyreException` built from the body's `message`, `type` and
`exceptionId`.  Returns the outcome with the list of sheet effects. -/
def showRequestTry (showResult submitResult : Except JSErr JSVal)
    (network : JSVal) : Except JSErr JSVal × List PayEffect :=
  match showResult with
  | .error e => (.error e, [])
  | .ok paymentResponse =>
    if truthy paymentResponse = false then
      (.error (.jsError "Payment Request Failed"), [])
    else
      match submitResult with
      | .error e => (.error e, [])
      | .ok resp =>
        match jgetE resp "data", jgetE resp "status" with
        | .error e, _ => (.error e, [])
        | .ok _, .error e => (.error e, [])
        | .ok data, .ok status =>
          if jsGEInt status 200 && jsLTInt status 300 then
            -- await paymentResponse.complete('success') happens before the
            -- return expression evaluates wyreOrderToFiatOrder(data)
            match wyreOrderToFiatOrderE data with
            | .ok o =>
                (.ok (spreadObj o (.obj [("network", network)])), [.completeSuccess])
            | .error e => (.error e, [.completeSuccess])
          else
            match jgetE data "message" with
            | .error e => (.error e, [.completeFail])
            | .ok m =>
              match jgetE data "type" with
              | .error e => (.error e, [.completeFail])
              | .ok t =>
                match jgetE data "exceptionId" with
                | .error e => (.error e, [.completeFail])
                | .ok i => (.error (.wyreException m t i), [.completeFail])

/-- `showRequest`: runs the `try` body and applies the `catch` clause —
an error whose message contains `'AbortError'` yields `null`; any other
error aborts the payment sheet and is rethrown. -/
def showRequest (showResult submitResult : Except JSErr JSVal)
    (network : JSVal) : Except JSErr JSVal × List PayEffect :=
  match showRequestTry showResult submitResult network with
  | (.ok v, effs) => (.ok v, effs)
  | (.error e, effs) =>
    if jsIncludes e.message "AbortError" then (.ok .null, effs)
    else (.error e, effs ++ [.abortSheet])

/-! ## Mnemonic backup helper (InstaPay) -/

/-- The fixed constant message signed to derive the backup passphrase. -/
def MESSAGE_2_SIGN : String := "InstaPayMnemonic"

/-- Modelled from the spec: `util/bytes`' `byteArrayToHex` is not part of
the excerpt; per the spec the passphrase is the signature of a fixed
constant message, so the hex encoding of the message's UTF-8 bytes models
the conversion applied before signing. -/
def byteArrayToHex (s : String) : String :=
  s.toUTF8.toList.foldl
    (fun acc b => acc ++ (Nat.toDigits 16 (b.toNat / 16)).asString
      ++ (Nat.toDigits 16 (b.toNat % 16)).asString) ""

/-- A keyring of the keyring-controller state: a list of account
addresses. -/
structure Keyring where
  accounts : List String

/-- The keyring-controller state: the list of keyrings. -/
structure KeyringState where
  keyrings : List Keyring

/-- A `signPersonalMessage` request: the hex data and the `from` account
(`none` models the `undefined` obtained by indexing an empty account
list). -/
structure SignRequest where
  data : String
  fromAddr : Option String

/-- A signing error propagated from the keyring controller. -/
structure SignErr where
  msg : String

/-- `signMessageWithAccount0(message)`: hex-encodes the message, flattens
the accounts of all keyrings in order, and asks the keyring controller
(`sign`, an external capability) to sign with the first account
(`undefined` when there are no accounts).  The signature or the signing
error is returned as-is. -/
def signMessageWithAccount0 (sign : SignRequest → Except SignErr String)
    (state : KeyringState) (message : String) : Except SignErr String :=
  let hexMessage := byteArrayToHex message
  let accountsOrdered := state.keyrings.foldl (fun list k => list ++ k.accounts) []
  sign { data := hexMessage, fromAddr := accountsOrdered.head? }

/-- The encryption capability: `encrypt(password, plaintext)` and
`decrypt(password, ciphertext)`. -/
structure Encryptor where
  encrypt : String → String → String
  decrypt : String → String → String

/-- `encryptMnenomic(encryptor, mnemonic)`: derives the password by signing
the fixed message, then encrypts the mnemonic under it.  A signing failure
propagates. -/
def encryptMnenomic (encryptor : Encryptor)
    (sign : SignRequest → Except SignErr String) (state : KeyringState)
    (mnemonic : String) : Except SignErr String := do
  let password ← signMessageWithAccount0 sign state MESSAGE_2_SIGN
  return encryptor.encrypt password mnemonic

/-- `decryptMnemonic(encryptor, encryptedMnemonic)`: derives the password
by signing the fixed message (afresh — it is never cached), then decrypts.
A signing failure propagates. -/
def decryptMnemonic (encryptor : Encryptor)
    (sign : SignRequest → Except SignErr String) (state : KeyringState)
    (encryptedMnemonic : String) : Except SignErr String := do
  let password ← signMessageWithAccount0 sign state MESSAGE_2_SIGN
  return encryptor.decrypt password encryptedMnemonic

/-! ## `EnterPasswordSimple.onPressConfirm` -/

/-- The component state read by `onPressConfirm`. -/
structure EPState where
  password : String
  loading : Bool

/-- Observable effects of `onPressConfirm`: showing the length-error alert,
invoking the `onPasswordSet` navigation callback, popping navigation. -/
inductive EPEffect where
  | alertShown : EPEffect
  | passwordSet : String → EPEffect
  | popped : EPEffect
deriving DecidableEq

/-- `onPressConfirm`: returns early when already loading; alerts when the
password is shorter than 8 characters; otherwise calls
`onPasswordSet(password)` and pops navigation.  (JavaScript counts UTF-16
units; the passwords in the verified properties are plain ASCII, where the
counts agree.) -/
def onPressConfirm (s : EPState) : List EPEffect :=
  if s.loading then []
  else if s.password.length < 8 then [.alertShown]
  else [.passwordSet s.password, .popped]

/-! ## Helper lemmas -/

theorem exceptBind_ok {α β ε : Type} (a : α) (f : α → Except ε β) :
    (Except.ok a : Except ε α) >>= f = f a := rfl

theorem exceptBind_error {α β ε : Type} (e : ε) (f : α → Except ε β) :
    (Except.error e : Except ε α) >>= f = Except.error e := rfl

theorem exceptPure {α ε : Type} (a : α) :
    (pure a : Except ε α) = Except.ok a := rfl

/-! ## C2 -/

/-- C2: the remote-to-local status mapping `wyreOrderStateToFiatState` is
total and exact — it returns COMPLETED for COMPLETE, CANCELLED for FAILED,
and PENDING for every other value, including RUNNING_CHECKS, PROCESSING
and any unrecognized value. -/
theorem c2_wyre_state_mapping_total_exact :
    wyreOrderStateToFiatState (.str "COMPLETE") = .str "COMPLETED"
    ∧ wyreOrderStateToFiatState (.str "FAILED") = .str "CANCELLED"
    ∧ wyreOrderStateToFiatState (.str "RUNNING_CHECKS") = .str "PENDING"
    ∧ wyreOrderStateToFiatState (.str "PROCESSING") = .str "PENDING"
    ∧ ∀ v : JSVal, v ≠ .str "COMPLETE" → v ≠ .str "FAILED" →
        wyreOrderStateToFiatState v = .str "PENDING" := by
  refine ⟨rfl, rfl, rfl, rfl, ?_⟩
  intro v h1 h2
  cases v with
  | str s =>
      have hs1 : s ≠ "COMPLETE" := fun hs => h1 (by rw [hs])
      have hs2 : s ≠ "FAILED" := fun hs => h2 (by rw [hs])
      simp [wyreOrderStateToFiatState, FIAT_ORDER_STATES_PENDING, hs1, hs2]
  | null => rfl
  | undef => rfl
  | bool b => rfl
  | num n => rfl
  | obj fs => rfl

/-- C2 witness: the mapping at a concrete unrecognized value. -/
theorem c2_wyre_state_mapping_witness :
    wyreOrderStateToFiatState (.str "SOMETHING_ELSE") = .str "PENDING" :=
  c2_wyre_state_mapping_total_exact.2.2.2.2 (.str "SOMETHING_ELSE")
    (by intro h; injection h with h2; exact absurd h2 (by decide))
    (by intro h; injection h with h2; exact absurd h2 (by decide))

/-! ## C8 -/

/-- C8: `destToAddress` strips exactly the prefix `"ethereum:"` when the
destination begins with it, returning the remainder, and returns the
string unchanged otherwise. -/
theorem c8_dest_to_address_strips_exactly_eth :
    ∀ s : String,
      (∀ r : String, s = "ethereum:" ++ r → destToAddress s = r)
      ∧ (("ethereum:".data.isPrefixOf s.data) = false → destToAddress s = s) := by
  intro s
  constructor
  · intro r hr
    subst hr
    have hpre : "ethereum:".data.isPrefixOf ("ethereum:" ++ r).data = true := by
      simp [String.data_append, List.isPrefixOf_iff_prefix, List.prefix_append]
    rw [destToAddress, if_pos hpre]
    apply String.ext
    rw [String.data_drop, String.data_append]
    exact List.drop_left "ethereum:".data r.data
  · intro hno
    rw [destToAddress, if_neg (by simp [hno])]

/-- C8 witness: a prefixed destination is stripped, an unprefixed one is
returned unchanged. -/
theorem c8_dest_to_address_witness :
    destToAddress "ethereum:0xABC" = "0xABC" ∧ destToAddress "0xABC" = "0xABC" :=
  ⟨(c8_dest_to_address_strips_exactly_eth "ethereum:0xABC").1 "0xABC" rfl,
   (c8_dest_to_address_strips_exactly_eth "0xABC").2 (by decide)⟩

/-! ## C10 -/

/-- C10: in `EnterPasswordSimple`, pressing confirm while loading does
nothing; with a password shorter than 8 characters it shows the error
alert and neither invokes `onPasswordSet` nor pops navigation; with a
password of 8 or more characters it invokes `onPasswordSet` exactly once
with that password and pops navigation. -/
theorem c10_enter_password_confirm :
    ∀ s : EPState,
      (s.loading = true → onPressConfirm s = [])
      ∧ (s.loading = false → s.password.length < 8 → onPressConfirm s = [.alertShown])
      ∧ (s.loading = false → 8 ≤ s.password.length →
          onPressConfirm s = [.passwordSet s.password, .popped]) := by
  intro s
  refine ⟨?_, ?_, ?_⟩
  · intro h; simp [onPressConfirm, h]
  · intro h hlen; simp [onPressConfirm, h, hlen]
  · intro h hlen; simp [onPressConfirm, h, Nat.not_lt_of_le hlen]

/-- C10 witness: the three behaviours at concrete states. -/
theorem c10_enter_password_confirm_witness :
    onPressConfirm ⟨"longenough1", true⟩ = []
    ∧ onPressConfirm ⟨"short", false⟩ = [.alertShown]
    ∧ onPressConfirm ⟨"longenough1", false⟩
        = [.passwordSet "longenough1", .popped] :=
  ⟨(c10_enter_password_confirm ⟨"longenough1", true⟩).1 rfl,
   (c10_enter_password_confirm ⟨"short", false⟩).2.1 rfl (by decide),
   (c10_enter_password_confirm ⟨"longenough1", false⟩).2.2 rfl (by decide)⟩

/-! ## C7 -/

/-- C7: for every mnemonic, if the encryptor satisfies
`decrypt p (encrypt p x) = x` then `decryptMnemonic` applied to the result
of `encryptMnenomic` returns the mnemonic (the signing capability is a
fixed function, which models the assumed determinism of
`signPersonalMessage` for a fixed account and message). -/
theorem c7_mnemonic_roundtrip :
    ∀ (encryptor : Encryptor) (sign : SignRequest → Except SignErr String)
      (state : KeyringState) (m c : String),
      (∀ p x, encryptor.decrypt p (encryptor.encrypt p x) = x) →
      encryptMnenomic encryptor sign state m = .ok c →
      decryptMnemonic encryptor sign state c = .ok m := by
  intro encryptor sign state m c hround henc
  unfold encryptMnenomic at henc
  unfold decryptMnemonic
  cases h : signMessageWithAccount0 sign state MESSAGE_2_SIGN with
  | error e => rw [h, exceptBind_error] at henc; exact absurd henc (by simp)
  | ok password =>
      rw [h, exceptBind_ok, exceptPure] at henc
      injection henc with hc
      rw [exceptBind_ok, exceptPure, ← hc, hround]

/-- C7 witness: the roundtrip at a concrete reversible encryptor, signing
capability and mnemonic. -/
theorem c7_mnemonic_roundtrip_witness :
    decryptMnemonic ⟨fun _ x => x, fun _ c => c⟩ (fun _ => .ok "sig")
      ⟨[⟨["0xA"]⟩]⟩ "test mnemonic words" = .ok "test mnemonic words" :=
  c7_mnemonic_roundtrip ⟨fun _ x => x, fun _ c => c⟩ (fun _ => .ok "sig")
    ⟨[⟨["0xA"]⟩]⟩ "test mnemonic words" "test mnemonic words"
    (fun _ _ => rfl) rfl

/-! ## C9 -/

/-- C9: `signMessageWithAccount0` signs the fixed constant message with
the first account of the flattened keyring state: a signing error is
propagated as-is; with no accounts the request's account is absent
(`undefined`), so the operation fails whenever the capability rejects such
requests; with at least one account the request carries the first one, and
always the hex encoding of the fixed message. -/
theorem c9_sign_message_with_account0 :
    ∀ (sign : SignRequest → Except SignErr String) (state : KeyringState),
      (∀ e : SignErr,
        sign { data := byteArrayToHex MESSAGE_2_SIGN,
               fromAddr := (state.keyrings.foldl (fun l k => l ++ k.accounts) []).head? }
          = .error e →
        signMessageWithAccount0 sign state MESSAGE_2_SIGN = .error e)
      ∧ (state.keyrings.foldl (fun l k => l ++ k.accounts) [] = [] →
          signMessageWithAccount0 sign state MESSAGE_2_SIGN
            = sign { data := byteArrayToHex MESSAGE_2_SIGN, fromAddr := none })
      ∧ (∀ (a : String) (rest : List String),
          state.keyrings.foldl (fun l k => l ++ k.accounts) [] = a :: rest →
          signMessageWithAccount0 sign state MESSAGE_2_SIGN
            = sign { data := byteArrayToHex MESSAGE_2_SIGN, fromAddr := some a }) := by
  intro sign state
  refine ⟨?_, ?_, ?_⟩
  · intro e h; rw [signMessageWithAccount0]; exact h
  · intro h; rw [signMessageWithAccount0, h]; rfl
  · intro a rest h; rw [signMessageWithAccount0, h]; rfl

/-- C9 witness: with one keyring holding one account, a rejecting
capability's error is propagated and the request names the first
account. -/
theorem c9_sign_message_with_account0_witness :
    signMessageWithAccount0 (fun _ => .error ⟨"user rejected"⟩) ⟨[⟨["0xA", "0xB"]⟩]⟩
      MESSAGE_2_SIGN = .error ⟨"user rejected"⟩ :=
  (c9_sign_message_with_account0 (fun _ => .error ⟨"user rejected"⟩)
    ⟨[⟨["0xA", "0xB"]⟩]⟩).1 ⟨"user rejected"⟩ rfl

/-! ## Lemmas about object spread -/

theorem find?_key_none_of_not_mem (bs : List (String × JSVal)) (k : String)
    (h : k ∉ bs.map Prod.fst) : bs.find? (fun q => q.1 = k) = none := by
  rw [List.find?_eq_none]
  intro x hx hk
  exact h (List.mem_map.2 ⟨x, hx, (of_decide_eq_true hk).symm ▸ rfl⟩)

theorem find?_spreadFields_none (base over : List (String × JSVal)) (k : String)
    (h : over.find? (fun p => p.1 = k) = none) :
    (spreadFields base over).find? (fun p => p.1 = k)
      = base.find? (fun p => p.1 = k) := by
  induction base with
  | nil => simpa [spreadFields] using h
  | cons b bs ih =>
      by_cases hbk : b.1 = k
      · have hb : (over.find? fun q => q.1 = b.1) = none := by rw [hbk]; exact h
        simp only [spreadFields, List.filter_cons, hb, Option.isNone_none, if_true,
          List.cons_append]
        rw [List.find?_cons_of_pos _ (by simp [hbk]),
          List.find?_cons_of_pos _ (by simp [hbk])]
      · by_cases hpb : (over.find? fun q => q.1 = b.1).isNone = true
        · simp only [spreadFields, List.filter_cons]
          rw [if_pos hpb, List.cons_append,
            List.find?_cons_of_neg _ (by simp [hbk]),
            List.find?_cons_of_neg _ (by simp [hbk])]
          exact ih
        · simp only [spreadFields, List.filter_cons]
          rw [if_neg hpb, List.find?_cons_of_neg _ (by simp [hbk])]
          exact ih

theorem find?_spreadFields_some (base over : List (String × JSVal)) (k : String)
    (p : String × JSVal) (h : over.find? (fun q => q.1 = k) = some p) :
    (spreadFields base over).find? (fun q => q.1 = k) = some p := by
  induction base with
  | nil => simpa [spreadFields] using h
  | cons b bs ih =>
      by_cases hbk : b.1 = k
      · have hb : (over.find? fun q => q.1 = b.1) = some p := by rw [hbk]; exact h
        simp only [spreadFields, List.filter_cons, hb, Option.isNone_some]
        simpa [spreadFields] using ih
      · by_cases hpb : (over.find? fun q => q.1 = b.1).isNone = true
        · simp only [spreadFields, List.filter_cons]
          rw [if_pos hpb, List.cons_append,
            List.find?_cons_of_neg _ (by simp [hbk])]
          exact ih
        · simp only [spreadFields, List.filter_cons]
          rw [if_neg hpb]
          exact ih

theorem jget_spreadObj_some (a : JSVal) (bs : List (String × JSVal)) (k : String)
    (p : String × JSVal) (h : bs.find? (fun q => q.1 = k) = some p) :
    jget (spreadObj a (.obj bs)) k = p.2 := by
  show lookupField (spreadFields (fieldsOf a) bs) k = p.2
  unfold lookupField
  rw [find?_spreadFields_some (fieldsOf a) bs k p h]

theorem jget_spreadObj_none (a : JSVal) (bs : List (String × JSVal)) (k : String)
    (h : bs.find? (fun q => q.1 = k) = none) :
    jget (spreadObj a (.obj bs)) k = lookupField (fieldsOf a) k := by
  show lookupField (spreadFields (fieldsOf a) bs) k = lookupField (fieldsOf a) k
  unfold lookupField
  rw [find?_spreadFields_none (fieldsOf a) bs k h]

/-! ## Shape of the normalized records -/

theorem jgetE_ok_eq (v : JSVal) (k : String) (x : JSVal) (h : jgetE v k = .ok x) :
    x = jget v k := by
  cases v with
  | null => cases h
  | undef => cases h
  | bool b => injection h with h; exact h.symm
  | num n => injection h with h; exact h.symm
  | str s => injection h with h; exact h.symm
  | obj fs => injection h with h; exact h.symm

theorem wyreOrderToFiatOrderE_ok (w o : JSVal) (h : wyreOrderToFiatOrderE w = .ok o) :
    ∃ idv am cur cc st dstv acct : JSVal,
      jgetE w "id" = .ok idv
      ∧ jgetE w "sourceAmount" = .ok am
      ∧ jgetE w "sourceCurrency" = .ok cur
      ∧ jgetE w "destCurrency" = .ok cc
      ∧ jgetE w "status" = .ok st
      ∧ jgetE w "dest" = .ok dstv
      ∧ destToAddressJS dstv = .ok acct
      ∧ o = .obj
        [ ("id", idv),
          ("provider", FIAT_ORDER_PROVIDERS_WYRE_APPLE_PAY),
          ("amount", am),
          ("fee", .null),
          ("cryptoAmount", .null),
          ("cryptoFee", .null),
          ("currency", cur),
          ("cryptocurrency", cc),
          ("state", wyreOrderStateToFiatState st),
          ("account", acct),
          ("txHash", .null),
          ("data", .obj [("order", w)]) ] := by
  unfold wyreOrderToFiatOrderE at h
  cases h1 : jgetE w "id" with
  | error e =>
      simp only [h1, exceptBind_error] at h; exact Except.noConfusion h
  | ok idv =>
  simp only [h1, exceptBind_ok] at h
  cases h2 : jgetE w "sourceAmount" with
  | error e =>
      simp only [h2, exceptBind_error] at h; exact Except.noConfusion h
  | ok am =>
  simp only [h2, exceptBind_ok] at h
  cases h3 : jgetE w "sourceCurrency" with
  | error e =>
      simp only [h3, exceptBind_error] at h; exact Except.noConfusion h
  | ok cur =>
  simp only [h3, exceptBind_ok] at h
  cases h4 : jgetE w "destCurrency" with
  | error e =>
      simp only [h4, exceptBind_error] at h; exact Except.noConfusion h
  | ok cc =>
  simp only [h4, exceptBind_ok] at h
  cases h5 : jgetE w "status" with
  | error e =>
      simp only [h5, exceptBind_error] at h; exact Except.noConfusion h
  | ok st =>
  simp only [h5, exceptBind_ok] at h
  cases h6 : jgetE w "dest" with
  | error e =>
      simp only [h6, exceptBind_error] at h; exact Except.noConfusion h
  | ok dstv =>
  simp only [h6, exceptBind_ok] at h
  cases h7 : destToAddressJS dstv with
  | error e =>
      simp only [h7, exceptBind_error] at h; exact Except.noConfusion h
  | ok acct =>
  simp only [h7, exceptBind_ok, exceptPure] at h
  injection h with h
  exact ⟨idv, am, cur, cc, st, dstv, acct, rfl, rfl, rfl, rfl, rfl, rfl, h7, h.symm⟩

theorem wyreTransferToFiatOrderE_ok (w t : JSVal)
    (h : wyreTransferToFiatOrderE w = .ok t) :
    ∃ a b c d : JSVal,
      t = .obj [("fee", a), ("cryptoAmount", b), ("cryptoFee", c), ("txHash", d)] := by
  unfold wyreTransferToFiatOrderE at h
  cases h1 : jgetE w "fee" with
  | error e =>
      simp only [h1, exceptBind_error] at h; exact Except.noConfusion h
  | ok fee =>
  simp only [h1, exceptBind_ok] at h
  cases h2 : jgetE w "destAmount" with
  | error e =>
      simp only [h2, exceptBind_error] at h; exact Except.noConfusion h
  | ok destAmount =>
  simp only [h2, exceptBind_ok] at h
  by_cases hf : truthy fee = true
  · rw [if_pos hf] at h
    cases h3 : jgetE w "destCurrency" with
    | error e =>
        simp only [h3, exceptBind_error] at h; exact Except.noConfusion h
    | ok dc =>
    simp only [h3, exceptBind_ok] at h
    cases h4 : jgetE fee (jsPropKey dc) with
    | error e =>
        simp only [h4, exceptBind_error] at h; exact Except.noConfusion h
    | ok cf =>
    simp only [h4, exceptBind_ok] at h
    cases h5 : jgetE w "blockchainNetworkTx" with
    | error e =>
        simp only [h5, exceptBind_error] at h; exact Except.noConfusion h
    | ok tx =>
    simp only [h5, exceptBind_ok, exceptPure] at h
    injection h with h
    exact ⟨fee, destAmount, cf, tx, h.symm⟩
  · rw [if_neg hf] at h
    simp only [show (pure JSVal.null : Except JSErr JSVal) = .ok .null from rfl,
      exceptBind_ok] at h
    cases h5 : jgetE w "blockchainNetworkTx" with
    | error e =>
        simp only [h5, exceptBind_error] at h; exact Except.noConfusion h
    | ok tx =>
    simp only [h5, exceptBind_ok, exceptPure] at h
    injection h with h
    exact ⟨fee, destAmount, .null, tx, h.symm⟩

/-! ## Behaviour of the order processor -/

/-- Characterization of `processWyreApplePayOrder` on a resolved order
fetch, used as a proof device: every error path collapses to the input
order, the no-transfer path overlays the normalized order, and the
transfer path additionally overlays the transfer-derived fields and the
audit payload. -/
def processOkSpec (resp : JSVal) (ft : Except JSErr JSVal) (order : JSVal) : JSVal :=
  let data := jget resp "data"
  if truthy data = false then order
  else if truthy (jget data "transferId") = true then
    match ft with
    | .error _ => order
    | .ok transfer =>
      match wyreOrderToFiatOrderE data with
      | .error _ => order
      | .ok o =>
        match wyreTransferToFiatOrderE transfer with
        | .error _ => order
        | .ok tv =>
          spreadObj (spreadObj (spreadObj order o) tv)
            (.obj [("data", .obj [("order", data), ("transfer", transfer)])])
  else
    match wyreOrderToFiatOrderE data with
    | .error _ => order
    | .ok o => spreadObj order o

theorem process_ok_eq (resp : JSVal) (ft : Except JSErr JSVal) (order : JSVal) :
    processWyreApplePayOrder (.ok resp) ft order = processOkSpec resp ft order := by
  cases resp with
  | null =>
      simp [processWyreApplePayOrder, processOkSpec, jgetE, jget, truthy,
        exceptBind_ok, exceptBind_error, exceptPure]
  | undef =>
      simp [processWyreApplePayOrder, processOkSpec, jgetE, jget, truthy,
        exceptBind_ok, exceptBind_error, exceptPure]
  | bool b =>
      simp [processWyreApplePayOrder, processOkSpec, jgetE, jget, truthy,
        exceptBind_ok, exceptBind_error, exceptPure]
  | num n =>
      simp [processWyreApplePayOrder, processOkSpec, jgetE, jget, truthy,
        exceptBind_ok, exceptBind_error, exceptPure]
  | str s =>
      simp [processWyreApplePayOrder, processOkSpec, jgetE, jget, truthy,
        exceptBind_ok, exceptBind_error, exceptPure]
  | obj fs =>
      simp only [processWyreApplePayOrder, processOkSpec, jgetE,
        exceptBind_ok, exceptBind_error, exceptPure]
      by_cases hd : truthy (jget (.obj fs) "data") = false
      · simp [hd]
      · have hd' : truthy (jget (.obj fs) "data") = true := by
          revert hd; cases truthy (jget (JSVal.obj fs) "data") <;> simp
        cases hdata : jget (.obj fs) "data" with
        | null => rw [hdata] at hd'; exact absurd hd' (by simp [truthy])
        | undef => rw [hdata] at hd'; exact absurd hd' (by simp [truthy])
        | bool b =>
            rw [hdata] at hd'
            have hb : b = true := by simpa [truthy] using hd'
            subst hb
            cases ho : wyreOrderToFiatOrderE (.bool true) with
            | error e =>
                simp [hd', ho, exceptBind_ok, exceptBind_error, exceptPure,
                  show jget (JSVal.bool true) "transferId" = .undef from rfl,
                  show truthy JSVal.undef = false from rfl]
            | ok o =>
                simp [hd', ho, exceptBind_ok, exceptBind_error, exceptPure,
                  show jget (JSVal.bool true) "transferId" = .undef from rfl,
                  show truthy JSVal.undef = false from rfl]
        | num n =>
            rw [hdata] at hd'
            cases ho : wyreOrderToFiatOrderE (.num n) with
            | error e =>
                simp [hd', ho, exceptBind_ok, exceptBind_error, exceptPure,
                  show jget (JSVal.num n) "transferId" = .undef from rfl,
                  show truthy JSVal.undef = false from rfl]
            | ok o =>
                simp [hd', ho, exceptBind_ok, exceptBind_error, exceptPure,
                  show jget (JSVal.num n) "transferId" = .undef from rfl,
                  show truthy JSVal.undef = false from rfl]
        | str s =>
            rw [hdata] at hd'
            cases ho : wyreOrderToFiatOrderE (.str s) with
            | error e =>
                simp [hd', ho, exceptBind_ok, exceptBind_error, exceptPure,
                  show jget (JSVal.str s) "transferId" = .undef from rfl,
                  show truthy JSVal.undef = false from rfl]
            | ok o =>
                simp [hd', ho, exceptBind_ok, exceptBind_error, exceptPure,
                  show jget (JSVal.str s) "transferId" = .undef from rfl,
                  show truthy JSVal.undef = false from rfl]
        | obj dfs =>
            by_cases htid : truthy (jget (.obj dfs) "transferId") = true
            · cases ft with
              | error e =>
                  simp [hd', htid, exceptBind_ok, exceptBind_error, exceptPure,
                    show truthy (JSVal.obj dfs) = true from rfl]
              | ok transfer =>
                  cases ho : wyreOrderToFiatOrderE (.obj dfs) with
                  | error e =>
                      simp [hd', htid, ho, exceptBind_ok, exceptBind_error,
                        exceptPure, show truthy (JSVal.obj dfs) = true from rfl]
                  | ok o =>
                      cases htv : wyreTransferToFiatOrderE transfer with
                      | error e =>
                          simp [hd', htid, ho, htv, exceptBind_ok,
                            exceptBind_error, exceptPure,
                            show truthy (JSVal.obj dfs) = true from rfl]
                      | ok tv =>
                          simp [hd', htid, ho, htv, exceptBind_ok,
                            exceptBind_error, exceptPure,
                            show truthy (JSVal.obj dfs) = true from rfl]
            · have htid' : truthy (jget (.obj dfs) "transferId") = false := by
                revert htid
                cases truthy (jget (JSVal.obj dfs) "transferId") <;> simp
              cases ho : wyreOrderToFiatOrderE (.obj dfs) with
              | error e =>
                  simp [hd', htid', ho, exceptBind_ok, exceptBind_error,
                    exceptPure, show truthy (JSVal.obj dfs) = true from rfl]
              | ok o =>
                  simp [hd', htid', ho, exceptBind_ok, exceptBind_error,
                    exceptPure, show truthy (JSVal.obj dfs) = true from rfl]

theorem process_fetch_error (e : JSErr) (ft : Except JSErr JSVal) (order : JSVal) :
    processWyreApplePayOrder (.error e) ft order = order := by
  simp [processWyreApplePayOrder, exceptBind_error]

/-! ## C1 -/

/-- C1: `processWyreApplePayOrder` returns the input order unchanged — with
no error propagated — whenever the order-status fetch rejects, the
order-status body is empty/absent (falsy), or the transfer-status fetch
rejects (the latter is consulted exactly when the body carries a truthy
`transferId`). -/
theorem c1_process_noop_on_failure :
    ∀ (order : JSVal) (fetchTransfer : Except JSErr JSVal) (e : JSErr) (resp : JSVal),
      processWyreApplePayOrder (.error e) fetchTransfer order = order
      ∧ (truthy (jget resp "data") = false →
          processWyreApplePayOrder (.ok resp) fetchTransfer order = order)
      ∧ (truthy (jget resp "data") = true →
          truthy (jget (jget resp "data") "transferId") = true →
          processWyreApplePayOrder (.ok resp) (.error e) order = order) := by
  intro order ft e resp
  refine ⟨process_fetch_error e ft order, ?_, ?_⟩
  · intro h
    rw [process_ok_eq]
    simp only [processOkSpec]
    simp [h]
  · intro h1 h2
    rw [process_ok_eq]
    simp only [processOkSpec]
    simp [h1, h2]

/-- C1 witness: the three no-op paths at concrete inputs. -/
theorem c1_process_noop_witness :
    processWyreApplePayOrder (.error (.jsError "Network Error")) (.ok .null)
        (.obj [("id", .str "WO_1"), ("fee", .num 7)])
      = .obj [("id", .str "WO_1"), ("fee", .num 7)]
    ∧ processWyreApplePayOrder (.ok (.obj [])) (.ok .null)
        (.obj [("id", .str "WO_1"), ("fee", .num 7)])
      = .obj [("id", .str "WO_1"), ("fee", .num 7)]
    ∧ processWyreApplePayOrder
        (.ok (.obj [("data", .obj [("transferId", .str "TF_1")])]))
        (.error (.jsError "Network Error"))
        (.obj [("id", .str "WO_1"), ("fee", .num 7)])
      = .obj [("id", .str "WO_1"), ("fee", .num 7)] :=
  ⟨(c1_process_noop_on_failure (.obj [("id", .str "WO_1"), ("fee", .num 7)])
      (.ok .null) (.jsError "Network Error") (.obj [])).1,
   (c1_process_noop_on_failure (.obj [("id", .str "WO_1"), ("fee", .num 7)])
      (.ok .null) (.jsError "Network Error") (.obj [])).2.1 rfl,
   (c1_process_noop_on_failure (.obj [("id", .str "WO_1"), ("fee", .num 7)])
      (.ok .null) (.jsError "Network Error")
      (.obj [("data", .obj [("transferId", .str "TF_1")])])).2.2 rfl rfl⟩

/-! ## C5 -/

theorem lookupField_spreadFields_eq_none (base over : List (String × JSVal))
    (k : String) (h : over.find? (fun q => q.1 = k) = none) :
    lookupField (spreadFields base over) k = lookupField base k := by
  unfold lookupField
  rw [find?_spreadFields_none base over k h]

theorem lookupField_spreadFields_eq_some (base over : List (String × JSVal))
    (k : String) (p : String × JSVal) (h : over.find? (fun q => q.1 = k) = some p) :
    lookupField (spreadFields base over) k = p.2 := by
  unfold lookupField
  rw [find?_spreadFields_some base over k p h]

theorem state_of_overlay1 (order idv am cur cc st acct w : JSVal) :
    jget (spreadObj order (.obj
      [ ("id", idv),
        ("provider", FIAT_ORDER_PROVIDERS_WYRE_APPLE_PAY),
        ("amount", am),
        ("fee", .null),
        ("cryptoAmount", .null),
        ("cryptoFee", .null),
        ("currency", cur),
        ("cryptocurrency", cc),
        ("state", wyreOrderStateToFiatState st),
        ("account", acct),
        ("txHash", .null),
        ("data", .obj [("order", w)]) ])) "state"
      = wyreOrderStateToFiatState st :=
  jget_spreadObj_some _ _ _ ("state", wyreOrderStateToFiatState st) rfl

theorem state_of_overlay3 (order idv am cur cc st acct w fa fb fc fd dat : JSVal) :
    jget (spreadObj (spreadObj (spreadObj order (.obj
      [ ("id", idv),
        ("provider", FIAT_ORDER_PROVIDERS_WYRE_APPLE_PAY),
        ("amount", am),
        ("fee", .null),
        ("cryptoAmount", .null),
        ("cryptoFee", .null),
        ("currency", cur),
        ("cryptocurrency", cc),
        ("state", wyreOrderStateToFiatState st),
        ("account", acct),
        ("txHash", .null),
        ("data", .obj [("order", w)]) ]))
      (.obj [("fee", fa), ("cryptoAmount", fb), ("cryptoFee", fc), ("txHash", fd)]))
      (.obj [("data", dat)])) "state"
      = wyreOrderStateToFiatState st := by
  show lookupField
      (spreadFields
        (spreadFields
          (spreadFields (fieldsOf order)
            [ ("id", idv),
              ("provider", FIAT_ORDER_PROVIDERS_WYRE_APPLE_PAY),
              ("amount", am),
              ("fee", .null),
              ("cryptoAmount", .null),
              ("cryptoFee", .null),
              ("currency", cur),
              ("cryptocurrency", cc),
              ("state", wyreOrderStateToFiatState st),
              ("account", acct),
              ("txHash", .null),
              ("data", .obj [("order", w)]) ])
          [("fee", fa), ("cryptoAmount", fb), ("cryptoFee", fc), ("txHash", fd)])
        [("data", dat)]) "state"
      = wyreOrderStateToFiatState st
  exact (lookupField_spreadFields_eq_none _ [("data", dat)] "state" rfl).trans
    ((lookupField_spreadFields_eq_none _
        [("fee", fa), ("cryptoAmount", fb), ("cryptoFee", fc), ("txHash", fd)]
        "state" rfl).trans
      (lookupField_spreadFields_eq_some _
        [ ("id", idv),
          ("provider", FIAT_ORDER_PROVIDERS_WYRE_APPLE_PAY),
          ("amount", am),
          ("fee", .null),
          ("cryptoAmount", .null),
          ("cryptoFee", .null),
          ("currency", cur),
          ("cryptocurrency", cc),
          ("state", wyreOrderStateToFiatState st),
          ("account", acct),
          ("txHash", .null),
          ("data", .obj [("order", w)]) ]
        "state" ("state", wyreOrderStateToFiatState st) rfl))

/-- C5: every reconciliation outcome either leaves the order unchanged or
sets the returned record's `state` to the fixed mapping applied to the
remote order's `status`; transfer-derived data never determines `state`. -/
theorem c5_state_solely_from_order_status :
    ∀ (order resp : JSVal) (ft : Except JSErr JSVal) (e : JSErr),
      processWyreApplePayOrder (.error e) ft order = order
      ∧ (processWyreApplePayOrder (.ok resp) ft order = order
          ∨ jget (processWyreApplePayOrder (.ok resp) ft order) "state"
              = wyreOrderStateToFiatState (jget (jget resp "data") "status")) := by
  intro order resp ft e
  refine ⟨process_fetch_error e ft order, ?_⟩
  by_cases hd : truthy (jget resp "data") = false
  · left; rw [process_ok_eq]; simp [processOkSpec, hd]
  · have hd' : truthy (jget resp "data") = true := by
      revert hd; cases truthy (jget resp "data") <;> simp
    by_cases htid : truthy (jget (jget resp "data") "transferId") = true
    · cases ft with
      | error e2 =>
          left; rw [process_ok_eq]; simp [processOkSpec, hd', htid]
      | ok transfer =>
        cases ho : wyreOrderToFiatOrderE (jget resp "data") with
        | error e2 =>
            left; rw [process_ok_eq]; simp [processOkSpec, hd', htid, ho]
        | ok o =>
          cases htv : wyreTransferToFiatOrderE transfer with
          | error e2 =>
              left; rw [process_ok_eq]; simp [processOkSpec, hd', htid, ho, htv]
          | ok tv =>
            right
            rw [process_ok_eq]
            obtain ⟨idv, am, cur, cc, st, dstv, acct, _, _, _, _, h5, _, _, hoeq⟩ :=
              wyreOrderToFiatOrderE_ok _ _ ho
            obtain ⟨fa, fb, fc, fd, htveq⟩ := wyreTransferToFiatOrderE_ok _ _ htv
            subst hoeq htveq
            have hst := jgetE_ok_eq _ _ _ h5
            rw [← hst]
            simp only [processOkSpec, hd', htid, ho, htv, Bool.true_eq_false,
              if_false, if_true]
            exact state_of_overlay3 order idv am cur cc st acct
              (jget resp "data") fa fb fc fd
              (.obj [("order", jget resp "data"), ("transfer", transfer)])
    · have htid' : truthy (jget (jget resp "data") "transferId") = false := by
        revert htid
        cases truthy (jget (jget resp "data") "transferId") <;> simp
      cases ho : wyreOrderToFiatOrderE (jget resp "data") with
      | error e2 =>
          left; rw [process_ok_eq]; simp [processOkSpec, hd', htid', ho]
      | ok o =>
        right
        rw [process_ok_eq]
        obtain ⟨idv, am, cur, cc, st, dstv, acct, _, _, _, _, h5, _, _, hoeq⟩ :=
          wyreOrderToFiatOrderE_ok _ _ ho
        subst hoeq
        have hst := jgetE_ok_eq _ _ _ h5
        rw [← hst]
        simp only [processOkSpec, hd', htid', ho, Bool.true_eq_false,
          Bool.false_eq_true, if_false, if_true]
        exact state_of_overlay1 order idv am cur cc st acct (jget resp "data")

/-! ## C3 -/

/-- Concrete input order for the transfer-overlay evaluation. -/
def c3Order : JSVal :=
  .obj [("id", .str "WO_1"), ("state", .str "PENDING"), ("fee", .null)]

/-- Concrete remote transfer body: fee 1, per-currency fees, destination
amount 3, transaction hash. -/
def c3Transfer : JSVal :=
  .obj
    [ ("transferId", .str "TF_1"),
      ("fee", .num 1),
      ("fees", .obj [("ETH", .num 5), ("USD", .num 1)]),
      ("sourceCurrency", .str "USD"),
      ("destCurrency", .str "ETH"),
      ("sourceAmount", .num 2),
      ("destAmount", .num 3),
      ("blockchainNetworkTx", .str "0xhash") ]

/-- Concrete order-status HTTP response carrying a transfer identifier. -/
def c3OrderResp : JSVal :=
  .obj
    [ ("data", .obj
        [ ("id", .str "WO_1"),
          ("status", .str "COMPLETE"),
          ("transferId", .str "TF_1"),
          ("sourceAmount", .num 2),
          ("sourceCurrency", .str "USD"),
          ("destCurrency", .str "ETH"),
          ("dest", .str "ethereum:0xABC") ]),
      ("status", .num 200) ]

/-- Concrete transfer-status HTTP response wrapping `c3Transfer` as its
body. -/
def c3TransferResp : JSVal := .obj [("data", c3Transfer), ("status", .num 200)]

/-- C3: at a concrete reconciliation with a transfer, the code reads the
transfer fields off the HTTP response object instead of its body (the
source binds the whole `getTransferStatus` response) and indexes the
numeric `fee` instead of the documented `fees` map, so the returned
record's `fee`, `cryptoAmount` and `txHash` are `undefined` and
`cryptoFee` is `null` — not the fetched transfer's fee 1, destination
amount 3, per-currency fee 5 and hash. -/
theorem c3_transfer_fields_lost :
    jget (processWyreApplePayOrder (.ok c3OrderResp) (.ok c3TransferResp) c3Order)
        "fee" = .undef
    ∧ jget c3Transfer "fee" = .num 1
    ∧ jget (processWyreApplePayOrder (.ok c3OrderResp) (.ok c3TransferResp) c3Order)
        "cryptoAmount" = .undef
    ∧ jget c3Transfer "destAmount" = .num 3
    ∧ jget (processWyreApplePayOrder (.ok c3OrderResp) (.ok c3TransferResp) c3Order)
        "cryptoFee" = .null
    ∧ jget (jget c3Transfer "fees") "ETH" = .num 5
    ∧ jget (processWyreApplePayOrder (.ok c3OrderResp) (.ok c3TransferResp) c3Order)
        "txHash" = .undef
    ∧ jget c3Transfer "blockchainNetworkTx" = .str "0xhash"
    ∧ (JSVal.undef = JSVal.num 1 → False)
    ∧ (JSVal.undef = JSVal.num 3 → False)
    ∧ (JSVal.null = JSVal.num 5 → False)
    ∧ (JSVal.undef = JSVal.str "0xhash" → False) :=
  ⟨rfl, rfl, rfl, rfl, rfl, rfl, rfl, rfl,
   fun h => JSVal.noConfusion h, fun h => JSVal.noConfusion h,
   fun h => JSVal.noConfusion h, fun h => JSVal.noConfusion h⟩

/-! ## C4 -/

/-- Concrete input order with a non-null fee for the no-transfer frame
evaluation. -/
def c4Order : JSVal :=
  .obj [("id", .str "WO_1"), ("fee", .num 7), ("notes", .str "keep")]

/-- Concrete order-status HTTP response whose body carries no transfer
identifier. -/
def c4Resp : JSVal :=
  .obj
    [ ("data", .obj
        [ ("id", .str "WO_1"),
          ("status", .str "PROCESSING"),
          ("transferId", .null),
          ("sourceAmount", .num 2),
          ("sourceCurrency", .str "USD"),
          ("destCurrency", .str "ETH"),
          ("dest", .str "ethereum:0xABC") ]),
      ("status", .num 200) ]

/-- C4 counterexample: with no transfer identifier, the `fee` of the input
order is not preserved — the normalized-order overlay resets it to
`null`. -/
theorem c4_fee_not_preserved :
    jget (processWyreApplePayOrder (.ok c4Resp) (.ok .null) c4Order) "fee"
      = .null
    ∧ jget c4Order "fee" = .num 7
    ∧ (JSVal.null = JSVal.num 7 → False) :=
  ⟨rfl, rfl, fun h => JSVal.noConfusion h⟩

/-- C4 (amended): with no transfer identifier the result is the input
order overlaid with the full normalized order record — `fee`,
`cryptoAmount`, `cryptoFee` and `txHash` are reset to `null` (not
preserved), `amount`, `currency`, `state`, `account` and the audit `data`
come from the remote order — and every key outside the twelve overlaid
ones keeps the input order's value. -/
theorem c4_no_transfer_overlay :
    ∀ (ofs : List (String × JSVal)) (resp : JSVal) (ft : Except JSErr JSVal)
      (o : JSVal),
      truthy (jget resp "data") = true →
      truthy (jget (jget resp "data") "transferId") = false →
      wyreOrderToFiatOrderE (jget resp "data") = .ok o →
      jget (processWyreApplePayOrder (.ok resp) ft (.obj ofs)) "fee" = .null
      ∧ jget (processWyreApplePayOrder (.ok resp) ft (.obj ofs)) "cryptoAmount"
          = .null
      ∧ jget (processWyreApplePayOrder (.ok resp) ft (.obj ofs)) "cryptoFee"
          = .null
      ∧ jget (processWyreApplePayOrder (.ok resp) ft (.obj ofs)) "txHash" = .null
      ∧ jget (processWyreApplePayOrder (.ok resp) ft (.obj ofs)) "amount"
          = jget (jget resp "data") "sourceAmount"
      ∧ jget (processWyreApplePayOrder (.ok resp) ft (.obj ofs)) "currency"
          = jget (jget resp "data") "sourceCurrency"
      ∧ jget (processWyreApplePayOrder (.ok resp) ft (.obj ofs)) "state"
          = wyreOrderStateToFiatState (jget (jget resp "data") "status")
      ∧ destToAddressJS (jget (jget resp "data") "dest")
          = .ok (jget (processWyreApplePayOrder (.ok resp) ft (.obj ofs)) "account")
      ∧ jget (processWyreApplePayOrder (.ok resp) ft (.obj ofs)) "data"
          = .obj [("order", jget resp "data")]
      ∧ ∀ k : String,
          k ∉ (["id", "provider", "amount", "fee", "cryptoAmount", "cryptoFee",
            "currency", "cryptocurrency", "state", "account", "txHash",
            "data"] : List String) →
          jget (processWyreApplePayOrder (.ok resp) ft (.obj ofs)) k
            = jget (.obj ofs) k := by
  intro ofs resp ft o hd ht ho
  obtain ⟨idv, am, cur, cc, st, dstv, acct, h1, h2, h3, h4, h5, h6, h7, hoeq⟩ :=
    wyreOrderToFiatOrderE_ok _ _ ho
  subst hoeq
  have hr : processWyreApplePayOrder (.ok resp) ft (.obj ofs)
      = spreadObj (.obj ofs) (.obj
        [ ("id", idv),
          ("provider", FIAT_ORDER_PROVIDERS_WYRE_APPLE_PAY),
          ("amount", am),
          ("fee", .null),
          ("cryptoAmount", .null),
          ("cryptoFee", .null),
          ("currency", cur),
          ("cryptocurrency", cc),
          ("state", wyreOrderStateToFiatState st),
          ("account", acct),
          ("txHash", .null),
          ("data", .obj [("order", jget resp "data")]) ]) := by
    rw [process_ok_eq]
    simp [processOkSpec, hd, ht, ho]
  refine ⟨?_, ?_, ?_, ?_, ?_, ?_, ?_, ?_, ?_, ?_⟩
  · rw [hr]; exact jget_spreadObj_some _ _ _ ("fee", .null) rfl
  · rw [hr]; exact jget_spreadObj_some _ _ _ ("cryptoAmount", .null) rfl
  · rw [hr]; exact jget_spreadObj_some _ _ _ ("cryptoFee", .null) rfl
  · rw [hr]; exact jget_spreadObj_some _ _ _ ("txHash", .null) rfl
  · rw [hr]
    exact (jget_spreadObj_some _ _ _ ("amount", am) (by rfl)).trans
      (jgetE_ok_eq _ _ _ h2)
  · rw [hr]
    exact (jget_spreadObj_some _ _ _ ("currency", cur) (by rfl)).trans
      (jgetE_ok_eq _ _ _ h3)
  · rw [hr]
    exact (jget_spreadObj_some _ _ _ ("state", wyreOrderStateToFiatState st)
      (by rfl)).trans (congrArg wyreOrderStateToFiatState (jgetE_ok_eq _ _ _ h5))
  · rw [hr]
    have ha := jget_spreadObj_some (.obj ofs)
      [ ("id", idv),
        ("provider", FIAT_ORDER_PROVIDERS_WYRE_APPLE_PAY),
        ("amount", am),
        ("fee", .null),
        ("cryptoAmount", .null),
        ("cryptoFee", .null),
        ("currency", cur),
        ("cryptocurrency", cc),
        ("state", wyreOrderStateToFiatState st),
        ("account", acct),
        ("txHash", .null),
        ("data", .obj [("order", jget resp "data")]) ] "account"
      ("account", acct) rfl
    rw [ha, ← jgetE_ok_eq _ _ _ h6]
    exact h7
  · rw [hr]
    exact jget_spreadObj_some _ _ _ ("data", .obj [("order", jget resp "data")]) rfl
  · intro k hk
    rw [hr]
    have hnone := find?_key_none_of_not_mem
      [ ("id", idv),
        ("provider", FIAT_ORDER_PROVIDERS_WYRE_APPLE_PAY),
        ("amount", am),
        ("fee", .null),
        ("cryptoAmount", .null),
        ("cryptoFee", .null),
        ("currency", cur),
        ("cryptocurrency", cc),
        ("state", wyreOrderStateToFiatState st),
        ("account", acct),
        ("txHash", .null),
        ("data", .obj [("order", jget resp "data")]) ] k
      (by intro hmem; exact hk (by simpa using hmem))
    rw [jget_spreadObj_none _ _ _ hnone]
    rfl

/-- C4 witness: the amended overlay at a concrete order and response — the
fee is reset to null while an unrelated key is preserved. -/
theorem c4_no_transfer_overlay_witness :
    jget (processWyreApplePayOrder (.ok c4Resp) (.ok .null)
        (.obj [("fee", .num 7), ("extra", .str "x")])) "fee" = .null
    ∧ jget (processWyreApplePayOrder (.ok c4Resp) (.ok .null)
        (.obj [("fee", .num 7), ("extra", .str "x")])) "extra" = .str "x" := by
  have h := c4_no_transfer_overlay [("fee", .num 7), ("extra", .str "x")] c4Resp
    (.ok .null)
    (.obj
      [ ("id", .str "WO_1"),
        ("provider", .str "WYRE_APPLE_PAY"),
        ("amount", .num 2),
        ("fee", .null),
        ("cryptoAmount", .null),
        ("cryptoFee", .null),
        ("currency", .str "USD"),
        ("cryptocurrency", .str "ETH"),
        ("state", .str "PENDING"),
        ("account", .str "0xABC"),
        ("txHash", .null),
        ("data", .obj [("order", .obj
          [ ("id", .str "WO_1"),
            ("status", .str "PROCESSING"),
            ("transferId", .null),
            ("sourceAmount", .num 2),
            ("sourceCurrency", .str "USD"),
            ("destCurrency", .str "ETH"),
            ("dest", .str "ethereum:0xABC") ])]) ])
    rfl rfl rfl
  exact ⟨h.1, (h.2.2.2.2.2.2.2.2.2 "extra" (by decide)).trans rfl⟩

/-! ## C6 -/

/-- Concrete non-2xx error body whose message happens to contain
`AbortError`. -/
def c6Body : JSVal :=
  .obj
    [ ("message", .str "AbortError"),
      ("type", .str "ValidationException"),
      ("exceptionId", .str "EX1") ]

/-- C6 counterexample: a 400 response whose body message contains
`AbortError` does not surface a `WyreException` — the catch clause
swallows it and `showRequest` resolves with `null`. -/
theorem c6_abort_message_swallowed :
    showRequest (.ok (.obj [("details", .obj [])]))
        (.ok (.obj [("data", c6Body), ("status", .num 400)])) (.str "1")
      = (.ok .null, [.completeFail]) := rfl

/-- C6 (amended): a submission response with status in 200–299 completes
the payment sheet with success and resolves with the normalized order plus
the `network` field; a response with status outside 200–299 completes the
sheet with fail, aborts it, and raises a `WyreException` carrying the
body's `message`, `type` and `exceptionId` — provided that message, as
stringified by the `Error` constructor, does not contain `AbortError`
(otherwise the catch clause swallows the exception and resolves with
`null`); a payment sheet rejected by user cancellation (an error whose
message contains `AbortError`) resolves with `null` rather than an
exception. -/
theorem c6_show_request_behaviour :
    ∀ (pr resp d network m t i : JSVal) (s : Int) (o : JSVal) (e : JSErr)
      (submit : Except JSErr JSVal),
      (truthy pr = true →
        jgetE resp "data" = .ok d →
        jgetE resp "status" = .ok (.num s) →
        200 ≤ s → s < 300 →
        wyreOrderToFiatOrderE d = .ok o →
        showRequest (.ok pr) (.ok resp) network
          = (.ok (spreadObj o (.obj [("network", network)])), [.completeSuccess]))
      ∧ (truthy pr = true →
        jgetE resp "data" = .ok d →
        jgetE resp "status" = .ok (.num s) →
        ¬(200 ≤ s ∧ s < 300) →
        jgetE d "message" = .ok m →
        jgetE d "type" = .ok t →
        jgetE d "exceptionId" = .ok i →
        jsIncludes (JSErr.message (.wyreException m t i)) "AbortError" = false →
        showRequest (.ok pr) (.ok resp) network
          = (.error (.wyreException m t i), [.completeFail, .abortSheet]))
      ∧ (jsIncludes e.message "AbortError" = true →
        showRequest (.error e) submit network = (.ok .null, [])) := by
  intro pr resp d network m t i s o e submit
  refine ⟨?_, ?_, ?_⟩
  · intro hpr hd hs h200 h300 ho
    have hb : (jsGEInt (.num s) 200 && jsLTInt (.num s) 300) = true := by
      simp [jsGEInt, jsLTInt, h200, h300]
    simp [showRequest, showRequestTry, hpr, hd, hs, hb, ho]
  · intro hpr hd hs hnot hm ht2 hi hinc
    have hb : (jsGEInt (.num s) 200 && jsLTInt (.num s) 300) = false := by
      simp only [jsGEInt, jsLTInt]
      rw [← Bool.decide_and]
      exact decide_eq_false hnot
    simp [showRequest, showRequestTry, hpr, hd, hs, hb, hm, ht2, hi, hinc]
  · intro hinc
    simp [showRequest, showRequestTry, hinc]

/-- C6 witness: the three behaviours at concrete inputs — a 201 success, a
400 failure with an ordinary error body, and a user-cancelled sheet. -/
theorem c6_show_request_witness :
    showRequest (.ok (.obj [("details", .obj [])]))
        (.ok (.obj [("data", .obj
          [ ("id", .str "WO_9"),
            ("status", .str "RUNNING_CHECKS"),
            ("sourceAmount", .num 5),
            ("sourceCurrency", .str "USD"),
            ("destCurrency", .str "ETH"),
            ("dest", .str "0xDEF") ]), ("status", .num 201)])) (.num 1)
      = (.ok (spreadObj
          (.obj
            [ ("id", .str "WO_9"),
              ("provider", .str "WYRE_APPLE_PAY"),
              ("amount", .num 5),
              ("fee", .null),
              ("cryptoAmount", .null),
              ("cryptoFee", .null),
              ("currency", .str "USD"),
              ("cryptocurrency", .str "ETH"),
              ("state", .str "PENDING"),
              ("account", .str "0xDEF"),
              ("txHash", .null),
              ("data", .obj [("order", .obj
                [ ("id", .str "WO_9"),
                  ("status", .str "RUNNING_CHECKS"),
                  ("sourceAmount", .num 5),
                  ("sourceCurrency", .str "USD"),
                  ("destCurrency", .str "ETH"),
                  ("dest", .str "0xDEF") ])]) ])
          (.obj [("network", .num 1)])), [.completeSuccess])
    ∧ showRequest (.ok (.obj [("details", .obj [])]))
        (.ok (.obj [("data", .obj
          [ ("message", .str "Invalid amount"),
            ("type", .str "ValidationException"),
            ("exceptionId", .str "EX2") ]), ("status", .num 400)])) (.num 1)
      = (.error (.wyreException (.str "Invalid amount")
          (.str "ValidationException") (.str "EX2")),
         [.completeFail, .abortSheet])
    ∧ showRequest (.error (.jsError "AbortError")) (.ok .null) (.num 1)
      = (.ok .null, []) :=
  ⟨(c6_show_request_behaviour (.obj [("details", .obj [])])
      (.obj [("data", .obj
        [ ("id", .str "WO_9"),
          ("status", .str "RUNNING_CHECKS"),
          ("sourceAmount", .num 5),
          ("sourceCurrency", .str "USD"),
          ("destCurrency", .str "ETH"),
          ("dest", .str "0xDEF") ]), ("status", .num 201)])
      (.obj
        [ ("id", .str "WO_9"),
          ("status", .str "RUNNING_CHECKS"),
          ("sourceAmount", .num 5),
          ("sourceCurrency", .str "USD"),
          ("destCurrency", .str "ETH"),
          ("dest", .str "0xDEF") ])
      (.num 1) .null .null .null 201
      (.obj
        [ ("id", .str "WO_9"),
          ("provider", .str "WYRE_APPLE_PAY"),
          ("amount", .num 5),
          ("fee", .null),
          ("cryptoAmount", .null),
          ("cryptoFee", .null),
          ("currency", .str "USD"),
          ("cryptocurrency", .str "ETH"),
          ("state", .str "PENDING"),
          ("account", .str "0xDEF"),
          ("txHash", .null),
          ("data", .obj [("order", .obj
            [ ("id", .str "WO_9"),
              ("status", .str "RUNNING_CHECKS"),
              ("sourceAmount", .num 5),
              ("sourceCurrency", .str "USD"),
              ("destCurrency", .str "ETH"),
              ("dest", .str "0xDEF") ])]) ])
      (.jsError "x") (.ok .null)).1 rfl rfl rfl (by decide) (by decide) rfl,
   (c6_show_request_behaviour (.obj [("details", .obj [])])
      (.obj [("data", .obj
        [ ("message", .str "Invalid amount"),
          ("type", .str "ValidationException"),
          ("exceptionId", .str "EX2") ]), ("status", .num 400)])
      (.obj
        [ ("message", .str "Invalid amount"),
          ("type", .str "ValidationException"),
          ("exceptionId", .str "EX2") ])
      (.num 1) (.str "Invalid amount") (.str "ValidationException")
      (.str "EX2") 400 .null (.jsError "x") (.ok .null)).2.1 rfl rfl rfl
      (by omega) rfl rfl rfl rfl,
   (c6_show_request_behaviour .null .null .null (.num 1) .null .null .null 0
      .null (.jsError "AbortError") (.ok .null)).2.2 rfl⟩
